import Mathlib

/-! L3G4200D gyroscope driver

A shallow embedding of `L3G4200D_U.cpp` / `L3G4200D_U.h`.

* The driver object is the record `L3G4200D_Unified`; every member function is a
  pure function that takes the record and returns the updated record (and the
  C++ return value, when there is one).
* The SPI bus, the chip-select pin and the serial console are outside the
  repository.  They are modelled by extra components of the record:
  `bus` is the list of operations the driver performed on the pins and on the
  SPI peripheral, in program order; `rx` is the stream of bytes that the
  peripheral answers, one per exchange, and `xfers` counts the exchanges done
  so far; `serial` is what was printed on the console.
* `uint8_t` values are natural numbers reduced modulo 256 where the C++ code
  converts to `uint8_t`; `int16_t` values are integers produced by `toInt16`.
* C++ `float` arithmetic is idealised as exact rational arithmetic: the
  literals `4.36f`, `8.73f`, `34.91f` are the rationals they denote and no
  rounding is applied.
* A `switch` over `_range` is a `match` over the three enumerators; the
  `default:` label of the source shares the arm of the first enumerator.
-/

namespace L3G4200D

/-! ## Constants of `L3G4200D_U.h` -/

/-- Address of the chip ID register. -/
def REG_WHO_AM_I : Nat := 0x0F

/-- Address of CTRL_REG1. -/
def REG_CTRL_1 : Nat := 0x20

/-- Address of CTRL_REG3. -/
def REG_CTRL_3 : Nat := 0x22

/-- Address of CTRL_REG4. -/
def REG_CTRL_4 : Nat := 0x23

/-- Address of CTRL_REG5. -/
def REG_CTRL_5 : Nat := 0x24

/-- Address of OUT_X_L. -/
def REG_OUT_X_L : Nat := 0x28

/-- The chip ID constant value of `REG_WHO_AM_I`. -/
def L3G4200D_CHIP_ID : Nat := 0xd3

/-- REG_CTRL_1 value for a 400 Hz data rate (`0b1001 << 4`). -/
def CTRL1_RATE_400HZ_CUTOFF_25HZ : Nat := 0b1001 <<< 4

/-- REG_CTRL_1 value to enable all axes (`0b1111 << 0`). -/
def CTRL1_XYZ : Nat := 0b1111 <<< 0

/-- REG_CTRL_3 value: drive output pins high and low (`0b0 << 4`). -/
def CTRL3_DRIVE_HIGH_AND_LOW : Nat := 0b0 <<< 4

/-- REG_CTRL_4 value: update high and low byte together (`0b1 << 7`). -/
def CTRL4_UPDATE_MSB_AND_LSB_TOGETHER : Nat := 0b1 <<< 7

/-- REG_CTRL_4 value: low byte at the lower address (`0b0 << 6`). -/
def CTRL4_LSB_AT_LOWER_ADDRESS : Nat := 0b0 <<< 6

/-- REG_CTRL_4 value for 250 deg/s (`0b00 << 4`). -/
def CTRL4_FULL_SCALE_250DPS : Nat := 0b00 <<< 4

/-- REG_CTRL_4 value for 500 deg/s (`0b01 << 4`). -/
def CTRL4_FULL_SCALE_500DPS : Nat := 0b01 <<< 4

/-- REG_CTRL_4 value for 2000 deg/s (`0b10 << 4`). -/
def CTRL4_FULL_SCALE_2000DPS : Nat := 0b10 <<< 4

/-- REG_CTRL_5 value to disable both filters (`(0b00 << 0) | (0b0 << 4)`). -/
def CTRL5_NO_FILTERING : Nat := (0b00 <<< 0) ||| (0b0 <<< 4)

/-- The largest `uint16_t`. -/
def UINT16_MAX : Nat := 65535

/-- The largest `int16_t`. -/
def INT16_MAX : Int := 32767

/-- The enumeration `gyroRange_t`; `_range` always holds one of its three
enumerators. -/
inductive gyroRange_t where
  | GYRO_RANGE_4_DOT_36_RAD_PER_SEC
  | GYRO_RANGE_8_DOT_73_RAD_PER_SEC
  | GYRO_RANGE_34_DOT_91_RAD_PER_SEC
  deriving DecidableEq, Repr

/-- The integer value of an enumerator of `gyroRange_t`, as the header assigns
it. -/
def gyroRange_t.toNat : gyroRange_t → Nat
  | .GYRO_RANGE_4_DOT_36_RAD_PER_SEC => CTRL4_FULL_SCALE_250DPS
  | .GYRO_RANGE_8_DOT_73_RAD_PER_SEC => CTRL4_FULL_SCALE_500DPS
  | .GYRO_RANGE_34_DOT_91_RAD_PER_SEC => CTRL4_FULL_SCALE_2000DPS

/-- The struct `rawGyroSample`: three `int16_t`. -/
structure rawGyroSample where
  x : Int
  y : Int
  z : Int
  deriving DecidableEq, Repr

/-- The part of `sensors_event_t` that `getEvent` fills in: `event->gyro`. -/
structure sensors_vec_t where
  x : ℚ
  y : ℚ
  z : ℚ
  deriving DecidableEq

/-- The struct `sensor_t` that `getSensor` fills in; `type` holds the name of
the enumerator of `sensors_type_t`. -/
structure sensor_t where
  name : String
  version : Int
  sensor_id : Int
  type : String
  max_value : ℚ
  min_value : ℚ
  resolution : ℚ
  min_delay : Int
  deriving DecidableEq

/-- Arduino `SPISettings`: clock in Hz, bit order (`true` for `MSBFIRST`), and
the SPI mode number. -/
structure SPISettings where
  clock : Nat
  msbFirst : Bool
  dataMode : Nat
  deriving DecidableEq, Repr

/-- One operation performed on the pins or on the SPI peripheral.
`digitalWrite pin false` drives the pin `LOW`, `digitalWrite pin true` drives
it `HIGH`; `transfer out` is one byte exchange that sends `out`. -/
inductive BusOp where
  | pinModeOutput (pin : Int)
  | digitalWrite (pin : Int) (high : Bool)
  | spiBegin
  | spiBeginTransaction (settings : SPISettings)
  | spiEndTransaction
  | transfer (out : Nat)
  deriving DecidableEq, Repr

/-- One `Serial.print` call: of a string or of an integer. -/
inductive SerialItem where
  | str (text : String)
  | int (val : Int)
  deriving DecidableEq, Repr

/-- The conversion `(int16_t) n` of an integer: reduction modulo 2^16 into
`-32768 .. 32767`. -/
def toInt16 (n : Int) : Int := (n + 32768) % 65536 - 32768

/-- Arduino's `abs(x)`, `((x)>0?(x):-(x))`, on the `int` that the `int16_t`
argument is promoted to; `int` is taken wide enough to hold `32768`. -/
def abs (x : Int) : Int := if x > 0 then x else -x

/-- The class `L3G4200D_Unified`: its data members, followed by the model of
the bus (`bus`, `rx`, `xfers`) and of the serial console (`serial`).  The
member `_spi` points at the bus so modelled. -/
structure L3G4200D_Unified where
  _spiCS : Int
  _sensorId : Int
  _autoRangeEnabled : Bool
  _range : gyroRange_t
  _spiSettings : SPISettings
  _debugLoggingEnabled : Bool
  bus : List BusOp
  rx : Nat → Nat
  xfers : Nat
  serial : List SerialItem

namespace L3G4200D_Unified

/-! ## The external operations, as recorded by the model -/

/-- `Serial.print(str)`. -/
def Serial_print (s : L3G4200D_Unified) (item : SerialItem) : L3G4200D_Unified :=
  { s with serial := s.serial ++ [item] }

/-- `pinMode(pin, OUTPUT)`. -/
def pinMode_OUTPUT (s : L3G4200D_Unified) (pin : Int) : L3G4200D_Unified :=
  { s with bus := s.bus ++ [BusOp.pinModeOutput pin] }

/-- `digitalWrite(pin, level)`. -/
def digitalWrite (s : L3G4200D_Unified) (pin : Int) (high : Bool) : L3G4200D_Unified :=
  { s with bus := s.bus ++ [BusOp.digitalWrite pin high] }

/-- `_spi->begin()`. -/
def spi_begin (s : L3G4200D_Unified) : L3G4200D_Unified :=
  { s with bus := s.bus ++ [BusOp.spiBegin] }

/-- `_spi->beginTransaction(settings)`. -/
def spi_beginTransaction (s : L3G4200D_Unified) (settings : SPISettings) : L3G4200D_Unified :=
  { s with bus := s.bus ++ [BusOp.spiBeginTransaction settings] }

/-- `_spi->endTransaction()`. -/
def spi_endTransaction (s : L3G4200D_Unified) : L3G4200D_Unified :=
  { s with bus := s.bus ++ [BusOp.spiEndTransaction] }

/-- `_spi->transfer(out)`: sends the `uint8_t` `out` and returns the `uint8_t`
that the peripheral answers on this exchange. -/
def spi_transfer (s : L3G4200D_Unified) (out : Nat) : Nat × L3G4200D_Unified :=
  (s.rx s.xfers % 256,
   { s with bus := s.bus ++ [BusOp.transfer (out % 256)], xfers := s.xfers + 1 })

/-! ## The member functions of `L3G4200D_U.cpp` -/

/-- `debugLog(const char str[])`. -/
def debugLog (s : L3G4200D_Unified) (str : String) : L3G4200D_Unified :=
  if s._debugLoggingEnabled then
    let s := s.Serial_print (.str "[")
    let s := s.Serial_print (.int s._sensorId)
    let s := s.Serial_print (.str "]: ")
    s.Serial_print (.str str)
  else s

/-- `debugLog(int val)`. -/
def debugLog_int (s : L3G4200D_Unified) (val : Int) : L3G4200D_Unified :=
  if s._debugLoggingEnabled then
    let s := s.Serial_print (.str "[")
    let s := s.Serial_print (.int s._sensorId)
    let s := s.Serial_print (.str "]: ")
    s.Serial_print (.int val)
  else s

/-- `debugAppend(const char str[])`. -/
def debugAppend (s : L3G4200D_Unified) (str : String) : L3G4200D_Unified :=
  if s._debugLoggingEnabled then s.Serial_print (.str str) else s

/-- `debugAppend(int val)`. -/
def debugAppend_int (s : L3G4200D_Unified) (val : Int) : L3G4200D_Unified :=
  if s._debugLoggingEnabled then s.Serial_print (.int val) else s

/-- `beginTransaction()`. -/
def beginTransaction (s : L3G4200D_Unified) : L3G4200D_Unified :=
  let s := s.spi_beginTransaction s._spiSettings
  s.digitalWrite s._spiCS false

/-- `endTransaction()`. -/
def endTransaction (s : L3G4200D_Unified) : L3G4200D_Unified :=
  let s := s.digitalWrite s._spiCS true
  s.spi_endTransaction

/-- `spiReadReg(regAddress)`. -/
def spiReadReg (s : L3G4200D_Unified) (regAddress : Nat) : Nat × L3G4200D_Unified :=
  let s := s.beginTransaction
  let s := (s.spi_transfer (regAddress ||| 0x80)).2
  let r := s.spi_transfer 0
  let val := r.1
  let s := r.2
  let s := s.endTransaction
  (val, s)

/-- `spiWriteReg(regAddress, value)`. -/
def spiWriteReg (s : L3G4200D_Unified) (regAddress value : Nat) : L3G4200D_Unified :=
  let s := s.beginTransaction
  let s := (s.spi_transfer regAddress).2
  let s := (s.spi_transfer value).2
  s.endTransaction

/-- `rawReadReg(regAddress)`. -/
def rawReadReg (s : L3G4200D_Unified) (regAddress : Nat) : Nat × L3G4200D_Unified :=
  s.spiReadReg regAddress

/-- `rawWriteReg(regAddress, newValue)`. -/
def rawWriteReg (s : L3G4200D_Unified) (regAddress newValue : Nat) : L3G4200D_Unified :=
  s.spiWriteReg regAddress newValue

/-- `rawXYZ()`. -/
def rawXYZ (s : L3G4200D_Unified) : rawGyroSample × L3G4200D_Unified :=
  let readCmd := REG_OUT_X_L ||| 0b11000000
  let s := s.beginTransaction
  let s := (s.spi_transfer readCmd).2
  let r := s.spi_transfer readCmd
  let xLow := r.1
  let r := r.2.spi_transfer readCmd
  let xHigh := r.1
  let r := r.2.spi_transfer readCmd
  let yLow := r.1
  let r := r.2.spi_transfer readCmd
  let yHigh := r.1
  let r := r.2.spi_transfer readCmd
  let zLow := r.1
  let r := r.2.spi_transfer readCmd
  let zHigh := r.1
  let s := r.2.endTransaction
  ({ x := toInt16 (((xHigh <<< 8) ||| xLow : Nat) : Int),
     y := toInt16 (((yHigh <<< 8) ||| yLow : Nat) : Int),
     z := toInt16 (((zHigh <<< 8) ||| zLow : Nat) : Int) }, s)

/-- `setRange(range)`. -/
def setRange (s : L3G4200D_Unified) (range : gyroRange_t) : L3G4200D_Unified :=
  let s := { s with _range := range }
  s.spiWriteReg REG_CTRL_4
    (CTRL4_UPDATE_MSB_AND_LSB_TOGETHER ||| CTRL4_LSB_AT_LOWER_ADDRESS ||| range.toNat)

/-- `rangeInRadians()`. -/
def rangeInRadians (s : L3G4200D_Unified) : ℚ :=
  match s._range with
  | .GYRO_RANGE_4_DOT_36_RAD_PER_SEC => 4.36 / 2
  | .GYRO_RANGE_8_DOT_73_RAD_PER_SEC => 8.73 / 2
  | .GYRO_RANGE_34_DOT_91_RAD_PER_SEC => 34.91 / 2

/-- `sampleToRad(fullScaleSample)`. -/
def sampleToRad (s : L3G4200D_Unified) (fullScaleSample : Int) : ℚ :=
  ((fullScaleSample : ℚ) * s.rangeInRadians) / (INT16_MAX : ℚ)

/-- `getSensor(sensor)`: the values written to `*sensor` after it is cleared. -/
def getSensor (s : L3G4200D_Unified) : sensor_t :=
  { name := "L3G4200D",
    version := 1,
    sensor_id := s._sensorId,
    type := "SENSOR_TYPE_GYROSCOPE",
    max_value := 31.94,
    min_value := 0,
    resolution := 4.36 / (UINT16_MAX : ℚ),
    min_delay := 0 }

/-- `enableAutoRange(enabled)`. -/
def enableAutoRange (s : L3G4200D_Unified) (enabled : Bool) : L3G4200D_Unified :=
  { s with _autoRangeEnabled := enabled }

/-- `enableDebugLogging(enabled)`. -/
def enableDebugLogging (s : L3G4200D_Unified) (enabled : Bool) : L3G4200D_Unified :=
  { s with _debugLoggingEnabled := enabled }

/-- `getEvent(event)`: the returned `bool`, the values written to
`event->gyro`, and the driver afterwards.  The pair `r` holds the local
variable `sample` and the driver. -/
def getEvent (s : L3G4200D_Unified) : Bool × sensors_vec_t × L3G4200D_Unified :=
  let r := s.rawXYZ
  let r :=
    if r.2._autoRangeEnabled then
      let SATURATED_SAMPLE_VALUE : Int := toInt16 (INT16_MAX - 10)
      if abs r.1.x ≥ SATURATED_SAMPLE_VALUE ∨
          abs r.1.y ≥ SATURATED_SAMPLE_VALUE ∨
          abs r.1.z ≥ SATURATED_SAMPLE_VALUE then
        match r.2._range with
        | .GYRO_RANGE_4_DOT_36_RAD_PER_SEC =>
          (r.2.setRange .GYRO_RANGE_8_DOT_73_RAD_PER_SEC).rawXYZ
        | .GYRO_RANGE_8_DOT_73_RAD_PER_SEC =>
          (r.2.setRange .GYRO_RANGE_34_DOT_91_RAD_PER_SEC).rawXYZ
        | .GYRO_RANGE_34_DOT_91_RAD_PER_SEC => r
      else r
    else r
  let sample := r.1
  let s := r.2
  let s := s.debugLog "Raw X, Y, Z samples: "
  let s := s.debugAppend_int sample.x
  let s := s.debugAppend ", "
  let s := s.debugAppend_int sample.y
  let s := s.debugAppend ", "
  let s := s.debugAppend_int sample.z
  let s := s.debugAppend "\n"
  (true,
   { x := s.sampleToRad sample.x, y := s.sampleToRad sample.y, z := s.sampleToRad sample.z },
   s)

/-- `begin(spiChipSelect, range, spi)`; the bus `spi` is the one the model
records in `bus`, `rx` and `xfers`. -/
def begin (s : L3G4200D_Unified) (spiChipSelect : Int) (range : gyroRange_t) :
    Bool × L3G4200D_Unified :=
  let s := { s with _spiCS := spiChipSelect }
  let s := s.pinMode_OUTPUT s._spiCS
  let s := s.digitalWrite s._spiCS true
  let s := { s with _range := range }
  let s := s.spi_begin
  let settings : SPISettings := { clock := 5 * 1000 * 1000, msbFirst := true, dataMode := 3 }
  let s := { s with _spiSettings := settings }
  let s := s.beginTransaction
  let r := s.spiReadReg REG_WHO_AM_I
  let chipId := r.1
  let s := r.2.endTransaction
  if chipId = 0 then
    let s := s.debugLog ("We tried to read the L3G4200 gyroscope chip ID, but got all " ++
      "logic LOWs (0s) in response.\n")
    let s := s.debugLog "Check that all your wires are connected properly?\n"
    (false, s)
  else if chipId = 0xFF then
    let s := s.debugLog ("We tried to read the L3G4200 gyroscope chip ID, but got all " ++
      "logic HIGHs (1s) in response.\n")
    let s := s.debugLog "Check that all your wires are connected properly?\n"
    (false, s)
  else if chipId ≠ L3G4200D_CHIP_ID then
    let s := s.debugLog "We tried to read the L3G4200 gyroscope chip ID expecting "
    let s := s.debugLog_int L3G4200D_CHIP_ID
    let s := s.debugLog ", but got "
    let s := s.debugLog_int chipId
    let s := s.debugLog "\n"
    let s := s.debugLog ("Perhaps you have the wrong chip select connected or you're " ++
      "connected to a different part?\n")
    (false, s)
  else
    let s := s.spiWriteReg REG_CTRL_1 (CTRL1_RATE_400HZ_CUTOFF_25HZ ||| CTRL1_XYZ)
    let s := s.spiWriteReg REG_CTRL_3 CTRL3_DRIVE_HIGH_AND_LOW
    let s := s.spiWriteReg REG_CTRL_4
      (CTRL4_UPDATE_MSB_AND_LSB_TOGETHER ||| CTRL4_LSB_AT_LOWER_ADDRESS ||| range.toNat)
    let s := s.spiWriteReg REG_CTRL_5 CTRL5_NO_FILTERING
    (true, s)

end L3G4200D_Unified

/-! ## Vocabulary of the specification

The definitions below are not translated from the source: they name what the
specification talks about, so that the theorems can compare the code with it. -/

/-- The 16-bit two's-complement integer with bit pattern `high * 256 + low`. -/
def twosComplement16 (low high : Nat) : Int :=
  if high < 0x80 then (high : Int) * 256 + low else (high : Int) * 256 + low - 65536

/-- The sample carried by the six data bytes that follow exchange number `k`
of the response stream: X low, X high, Y low, Y high, Z low, Z high. -/
def burstSample (rx : Nat → Nat) (k : Nat) : rawGyroSample :=
  { x := twosComplement16 (rx (k + 1) % 256) (rx (k + 2) % 256),
    y := twosComplement16 (rx (k + 3) % 256) (rx (k + 4) % 256),
    z := twosComplement16 (rx (k + 5) % 256) (rx (k + 6) % 256) }

/-- A sample saturates when some axis has magnitude at least `32767 - 10`. -/
def saturates (sample : rawGyroSample) : Prop :=
  32757 ≤ sample.x.natAbs ∨ 32757 ≤ sample.y.natAbs ∨ 32757 ≤ sample.z.natAbs

instance (sample : rawGyroSample) : Decidable (saturates sample) := by
  unfold saturates; infer_instance

/-- The next higher range; the largest range is its own successor. -/
def nextRange : gyroRange_t → gyroRange_t
  | .GYRO_RANGE_4_DOT_36_RAD_PER_SEC => .GYRO_RANGE_8_DOT_73_RAD_PER_SEC
  | .GYRO_RANGE_8_DOT_73_RAD_PER_SEC => .GYRO_RANGE_34_DOT_91_RAD_PER_SEC
  | .GYRO_RANGE_34_DOT_91_RAD_PER_SEC => .GYRO_RANGE_34_DOT_91_RAD_PER_SEC

/-- The full scale of a range in rad/s: 4.36, 8.73 or 34.91. -/
def fullScale : gyroRange_t → ℚ
  | .GYRO_RANGE_4_DOT_36_RAD_PER_SEC => 436 / 100
  | .GYRO_RANGE_8_DOT_73_RAD_PER_SEC => 873 / 100
  | .GYRO_RANGE_34_DOT_91_RAD_PER_SEC => 3491 / 100

/-- The half-scale constant of a range: 2.18, 4.365 or 17.455. -/
def halfScale : gyroRange_t → ℚ
  | .GYRO_RANGE_4_DOT_36_RAD_PER_SEC => 2180 / 1000
  | .GYRO_RANGE_8_DOT_73_RAD_PER_SEC => 4365 / 1000
  | .GYRO_RANGE_34_DOT_91_RAD_PER_SEC => 17455 / 1000

/-- The values of a sample converted with the half-scale of `range`:
`raw * (fullScale / 2) / 32767` on each axis. -/
def convertedAt (range : gyroRange_t) (sample : rawGyroSample) : sensors_vec_t :=
  { x := (sample.x : ℚ) * (fullScale range / 2) / 32767,
    y := (sample.y : ℚ) * (fullScale range / 2) / 32767,
    z := (sample.z : ℚ) * (fullScale range / 2) / 32767 }

/-- The bus operations of one register read that sends the command byte
`cmd`: select, two exchanges, deselect, inside one SPI transaction. -/
def readOps (settings : SPISettings) (cs : Int) (cmd : Nat) : List BusOp :=
  [.spiBeginTransaction settings, .digitalWrite cs false,
   .transfer cmd, .transfer 0,
   .digitalWrite cs true, .spiEndTransaction]

/-- The bus operations of one register write that sends `first` and then
`value`: select, two exchanges, deselect, inside one SPI transaction. -/
def writeOps (settings : SPISettings) (cs : Int) (first value : Nat) : List BusOp :=
  [.spiBeginTransaction settings, .digitalWrite cs false,
   .transfer first, .transfer value,
   .digitalWrite cs true, .spiEndTransaction]

/-- The bus operations of one burst read: select, seven exchanges that each
send `0xE8`, deselect, inside one SPI transaction. -/
def burstOps (settings : SPISettings) (cs : Int) : List BusOp :=
  [.spiBeginTransaction settings, .digitalWrite cs false,
   .transfer 0xE8, .transfer 0xE8, .transfer 0xE8, .transfer 0xE8,
   .transfer 0xE8, .transfer 0xE8, .transfer 0xE8,
   .digitalWrite cs true, .spiEndTransaction]

/-- The operations seen on the wires: chip-select changes and byte exchanges,
without the bookkeeping calls of the SPI peripheral. -/
def wireOps (ops : List BusOp) : List BusOp :=
  ops.filter fun op =>
    match op with
    | .digitalWrite _ _ => true
    | .transfer _ => true
    | _ => false

/-- The settings that `begin` stores: 5 MHz, most-significant bit first, SPI
mode 3. -/
def beginSettings : SPISettings := { clock := 5000000, msbFirst := true, dataMode := 3 }

/-- The bus operations that `begin` performs up to the end of its identity
check: the chip-select pin made an output and driven high, the SPI peripheral
started, and then the read of the identity register, whose transaction sits
inside a second `beginTransaction` / `endTransaction` pair. -/
def identityOps (cs : Int) : List BusOp :=
  [.pinModeOutput cs, .digitalWrite cs true, .spiBegin,
   .spiBeginTransaction beginSettings, .digitalWrite cs false,
   .spiBeginTransaction beginSettings, .digitalWrite cs false,
   .transfer 0x8F, .transfer 0x00,
   .digitalWrite cs true, .spiEndTransaction,
   .digitalWrite cs true, .spiEndTransaction]

/-- The bus operations of the four configuration writes of a successful
`begin`: CTRL1, CTRL3, CTRL4 and CTRL5, in this order. -/
def configOps (cs : Int) (range : gyroRange_t) : List BusOp :=
  writeOps beginSettings cs 0x20 0x9F ++
  writeOps beginSettings cs 0x22 0x00 ++
  writeOps beginSettings cs 0x23 (0x80 ||| range.toNat) ++
  writeOps beginSettings cs 0x24 0x00

/-- A driver whose bus answers the scripted bytes, then zeros. -/
def scripted (range : gyroRange_t) (autoRange : Bool) (bytes : List Nat) : L3G4200D_Unified :=
  { _spiCS := 10, _sensorId := 2113, _autoRangeEnabled := autoRange, _range := range,
    _spiSettings := { clock := 5000000, msbFirst := true, dataMode := 3 },
    _debugLoggingEnabled := false,
    bus := [], rx := fun k => bytes.getD k 0, xfers := 0, serial := [] }

/-! ## Facts about the primitives -/

open L3G4200D_Unified

/-- The cast `(int16_t)((high << 8) | low)` of two bytes is the two's-complement
value of the bit pattern `high * 256 + low`. -/
theorem toInt16_bytes (low high : Nat) (hl : low < 256) (hh : high < 256) :
    toInt16 (((high <<< 8) ||| low : Nat) : Int) = twosComplement16 low high := by
  have h : (high <<< 8) ||| low = 256 * high + low := by
    rw [Nat.shiftLeft_eq, Nat.mul_comm]
    exact (Nat.mul_add_lt_is_or (i := 8) (by simpa using hl) high).symm
  rw [h]
  unfold toInt16 twosComplement16
  push_cast
  split_ifs <;> omega

/-- The sample that `rawXYZ` returns is the one carried by the six bytes
answered after its first exchange. -/
theorem rawXYZ_sample (s : L3G4200D_Unified) :
    (s.rawXYZ).1 = burstSample s.rx s.xfers := by
  simp only [rawXYZ, beginTransaction, endTransaction, spi_transfer, spi_beginTransaction,
    spi_endTransaction, digitalWrite, burstSample]
  have hb : ∀ n : Nat, n % 256 < 256 := fun n => Nat.mod_lt _ (by norm_num)
  simp only [toInt16_bytes _ _ (hb _) (hb _), Nat.add_assoc]

/-- The driver after `rawXYZ`: one burst transaction more on the bus, seven
exchanges more, nothing else changed. -/
theorem rawXYZ_driver (s : L3G4200D_Unified) :
    (s.rawXYZ).2 =
      { s with bus := s.bus ++ burstOps s._spiSettings s._spiCS, xfers := s.xfers + 7 } := by
  simp [rawXYZ, beginTransaction, endTransaction, spi_transfer, spi_beginTransaction,
    spi_endTransaction, digitalWrite, burstOps, REG_OUT_X_L]

/-- The driver after `spiWriteReg`: one write transaction more on the bus, two
exchanges more, nothing else changed. -/
theorem spiWriteReg_driver (s : L3G4200D_Unified) (regAddress value : Nat) :
    s.spiWriteReg regAddress value =
      { s with bus := s.bus ++ writeOps s._spiSettings s._spiCS (regAddress % 256) (value % 256),
               xfers := s.xfers + 2 } := by
  simp [spiWriteReg, beginTransaction, endTransaction, spi_transfer, spi_beginTransaction,
    spi_endTransaction, digitalWrite, writeOps]

/-- The driver after `spiReadReg`: one read transaction more on the bus, two
exchanges more, nothing else changed. -/
theorem spiReadReg_driver (s : L3G4200D_Unified) (regAddress : Nat) :
    (s.spiReadReg regAddress).2 =
      { s with bus := s.bus ++ readOps s._spiSettings s._spiCS ((regAddress ||| 0x80) % 256),
               xfers := s.xfers + 2 } := by
  simp [spiReadReg, beginTransaction, endTransaction, spi_transfer, spi_beginTransaction,
    spi_endTransaction, digitalWrite, readOps]

/-! ## Register transaction primitives -/

/-- C7: each axis value returned by a burst read is the 16-bit
two's-complement integer whose bit pattern is `high * 256 + low`, where `low`
and `high` are the two bytes received for that axis: `high * 256 + low` when
`high < 0x80`, and `high * 256 + low - 65536` otherwise. -/
theorem rawXYZ_reassembles_twos_complement (s : L3G4200D_Unified)
    (xl xh yl yh zl zh : Nat)
    (hxl : s.rx (s.xfers + 1) % 256 = xl) (hxh : s.rx (s.xfers + 2) % 256 = xh)
    (hyl : s.rx (s.xfers + 3) % 256 = yl) (hyh : s.rx (s.xfers + 4) % 256 = yh)
    (hzl : s.rx (s.xfers + 5) % 256 = zl) (hzh : s.rx (s.xfers + 6) % 256 = zh) :
    (s.rawXYZ).1 =
      { x := if xh < 0x80 then (xh : Int) * 256 + xl else (xh : Int) * 256 + xl - 65536,
        y := if yh < 0x80 then (yh : Int) * 256 + yl else (yh : Int) * 256 + yl - 65536,
        z := if zh < 0x80 then (zh : Int) * 256 + zl else (zh : Int) * 256 + zl - 65536 } := by
  subst hxl hxh hyl hyh hzl hzh
  rw [rawXYZ_sample]
  rfl

/-- Witness for C7: the bytes `(0x34, 0x12)` give 4660, `(0x00, 0x80)` give
-32768 and `(0xFF, 0xFF)` give -1. -/
theorem rawXYZ_reassembles_twos_complement_witness :
    ((scripted .GYRO_RANGE_4_DOT_36_RAD_PER_SEC false
        [0x00, 0x34, 0x12, 0x00, 0x80, 0xFF, 0xFF]).rawXYZ).1 =
      { x := 4660, y := -32768, z := -1 } :=
  rawXYZ_reassembles_twos_complement
    (scripted .GYRO_RANGE_4_DOT_36_RAD_PER_SEC false [0x00, 0x34, 0x12, 0x00, 0x80, 0xFF, 0xFF])
    0x34 0x12 0x00 0x80 0xFF 0xFF rfl rfl rfl rfl rfl rfl

/-- Counterexample to C8: asked to write `0x80` to address `0xA3`, the write
primitive sends `0xA3` itself as its first byte, not `0xA3 AND 0x7F = 0x23`. -/
theorem rawWriteReg_sends_msb_set :
    ((scripted .GYRO_RANGE_4_DOT_36_RAD_PER_SEC false []).rawWriteReg 0xA3 0x80).bus =
        writeOps { clock := 5000000, msbFirst := true, dataMode := 3 } 10 0xA3 0x80 ∧
    ((scripted .GYRO_RANGE_4_DOT_36_RAD_PER_SEC false []).rawWriteReg 0xA3 0x80).bus ≠
        writeOps { clock := 5000000, msbFirst := true, dataMode := 3 } 10 (0xA3 &&& 0x7F) 0x80 := by
  decide

/-- C8, amended: for every address byte `a` and value byte `v`, the register
write primitive sends `a` unchanged as its first byte and `v` right after it,
inside one chip-select assert/deassert pair, and touches nothing else; the
first byte has its most-significant bit clear (equals `a AND 0x7F`) exactly
when `a < 0x80`. -/
theorem rawWriteReg_trace (s : L3G4200D_Unified) (a v : Nat) (ha : a < 256) (hv : v < 256) :
    s.rawWriteReg a v =
      { s with bus := s.bus ++ writeOps s._spiSettings s._spiCS a v, xfers := s.xfers + 2 } ∧
    wireOps (writeOps s._spiSettings s._spiCS a v) =
      [.digitalWrite s._spiCS false, .transfer a, .transfer v, .digitalWrite s._spiCS true] ∧
    (a &&& 0x7F = a ↔ a < 0x80) := by
  refine ⟨?_, rfl, ?_⟩
  · rw [rawWriteReg, spiWriteReg_driver, Nat.mod_eq_of_lt ha, Nat.mod_eq_of_lt hv]
  · have h : a &&& 0x7F = a % 128 := Nat.and_pow_two_sub_one_eq_mod a 7
    rw [h]
    omega

/-- Witness for C8, amended: writing `0x90` to CTRL4 (`0x23`). -/
theorem rawWriteReg_trace_witness :
    ((scripted .GYRO_RANGE_4_DOT_36_RAD_PER_SEC false []).rawWriteReg 0x23 0x90).bus =
      [.spiBeginTransaction { clock := 5000000, msbFirst := true, dataMode := 3 },
       .digitalWrite 10 false, .transfer 0x23, .transfer 0x90, .digitalWrite 10 true,
       .spiEndTransaction] :=
  congrArg L3G4200D_Unified.bus
    (rawWriteReg_trace (scripted .GYRO_RANGE_4_DOT_36_RAD_PER_SEC false []) 0x23 0x90
      (by decide) (by decide)).1

/-- C9: for every address byte `a`, the register read primitive selects the
chip, sends `a OR 0x80`, sends `0x00`, and deselects the chip, inside one SPI
transaction, and touches nothing else; it returns the byte answered on the
second exchange, whatever was answered on the first. -/
theorem rawReadReg_trace (s : L3G4200D_Unified) (a : Nat) (ha : a < 256) :
    (s.rawReadReg a).2 =
      { s with bus := s.bus ++ readOps s._spiSettings s._spiCS (a ||| 0x80),
               xfers := s.xfers + 2 } ∧
    wireOps (readOps s._spiSettings s._spiCS (a ||| 0x80)) =
      [.digitalWrite s._spiCS false, .transfer (a ||| 0x80), .transfer 0x00,
       .digitalWrite s._spiCS true] ∧
    (s.rawReadReg a).1 = s.rx (s.xfers + 1) % 256 ∧
    ∀ first : Nat,
      ({ s with rx := Function.update s.rx s.xfers first }.rawReadReg a).1 =
        (s.rawReadReg a).1 := by
  have hlt : a ||| 0x80 < 256 := Nat.or_lt_two_pow (n := 8) (by simpa using ha) (by norm_num)
  refine ⟨?_, rfl, rfl, ?_⟩
  · rw [rawReadReg, spiReadReg_driver, Nat.mod_eq_of_lt hlt]
  · intro first
    simp [rawReadReg, spiReadReg, beginTransaction, endTransaction, spi_transfer,
      spi_beginTransaction, spi_endTransaction, digitalWrite]

/-- Witness for C9: reading the identity register `0x0F` sends `0x8F` and then
`0x00`, and returns the second answer `0xD3`, not the first answer `0x55`. -/
theorem rawReadReg_trace_witness :
    (((scripted .GYRO_RANGE_4_DOT_36_RAD_PER_SEC false [0x55, 0xD3]).rawReadReg 0x0F).2.bus =
      [.spiBeginTransaction { clock := 5000000, msbFirst := true, dataMode := 3 },
       .digitalWrite 10 false, .transfer 0x8F, .transfer 0x00, .digitalWrite 10 true,
       .spiEndTransaction]) ∧
    ((scripted .GYRO_RANGE_4_DOT_36_RAD_PER_SEC false [0x55, 0xD3]).rawReadReg 0x0F).1 = 0xD3 :=
  ⟨congrArg L3G4200D_Unified.bus
    (rawReadReg_trace (scripted .GYRO_RANGE_4_DOT_36_RAD_PER_SEC false [0x55, 0xD3]) 0x0F
      (by decide)).1, by decide⟩

/-- C10: a burst read is one transaction, guarded by one chip-select
assert/deassert pair, of seven exchanges that all send `0xE8`, which is the
X-low address `0x28` with bits 7 and 6 set; it touches nothing else.  The
answer to the first exchange is discarded, and the answers to exchanges two
to seven are, in this order, X low, X high, Y low, Y high, Z low, Z high. -/
theorem rawXYZ_burst (s : L3G4200D_Unified) :
    (s.rawXYZ).2 =
      { s with bus := s.bus ++ burstOps s._spiSettings s._spiCS, xfers := s.xfers + 7 } ∧
    wireOps (burstOps s._spiSettings s._spiCS) =
      [.digitalWrite s._spiCS false,
       .transfer 0xE8, .transfer 0xE8, .transfer 0xE8, .transfer 0xE8,
       .transfer 0xE8, .transfer 0xE8, .transfer 0xE8,
       .digitalWrite s._spiCS true] ∧
    (0xE8 : Nat) = REG_OUT_X_L ||| (1 <<< 7) ||| (1 <<< 6) ∧
    (s.rawXYZ).1 =
      { x := twosComplement16 (s.rx (s.xfers + 1) % 256) (s.rx (s.xfers + 2) % 256),
        y := twosComplement16 (s.rx (s.xfers + 3) % 256) (s.rx (s.xfers + 4) % 256),
        z := twosComplement16 (s.rx (s.xfers + 5) % 256) (s.rx (s.xfers + 6) % 256) } ∧
    ∀ first : Nat,
      ({ s with rx := Function.update s.rx s.xfers first }.rawXYZ).1 = (s.rawXYZ).1 := by
  refine ⟨rawXYZ_driver s, rfl, by decide, rawXYZ_sample s, ?_⟩
  intro first
  rw [rawXYZ_sample, rawXYZ_sample]
  simp [burstSample, Function.update]

/-! ## Sampling and automatic range escalation -/

/-- The saturation test of `getEvent` holds exactly for the samples that
saturate. -/
theorem saturation_test (sample : rawGyroSample) :
    (abs sample.x ≥ toInt16 (INT16_MAX - 10) ∨ abs sample.y ≥ toInt16 (INT16_MAX - 10) ∨
      abs sample.z ≥ toInt16 (INT16_MAX - 10)) ↔ saturates sample := by
  have h : ∀ v : Int, abs v ≥ toInt16 (INT16_MAX - 10) ↔ 32757 ≤ v.natAbs := by
    intro v
    unfold abs toInt16 INT16_MAX
    split_ifs <;> omega
  simp only [saturates, h]

/-- The conversion `sampleToRad` in terms of the full scale of the active
range. -/
theorem sampleToRad_eq (s : L3G4200D_Unified) (raw : Int) :
    s.sampleToRad raw = (raw : ℚ) * (fullScale s._range / 2) / 32767 := by
  unfold sampleToRad rangeInRadians INT16_MAX
  cases s._range <;> norm_num [fullScale]

/-- The debug output of `getEvent` changes neither the range nor the bus. -/
theorem debug_output_keeps_driver (s : L3G4200D_Unified) (sample : rawGyroSample) :
    (((((((s.debugLog "Raw X, Y, Z samples: ").debugAppend_int sample.x).debugAppend
      ", ").debugAppend_int sample.y).debugAppend ", ").debugAppend_int sample.z).debugAppend
      "\n")._range = s._range ∧
    (((((((s.debugLog "Raw X, Y, Z samples: ").debugAppend_int sample.x).debugAppend
      ", ").debugAppend_int sample.y).debugAppend ", ").debugAppend_int sample.z).debugAppend
      "\n").bus = s.bus ∧
    (((((((s.debugLog "Raw X, Y, Z samples: ").debugAppend_int sample.x).debugAppend
      ", ").debugAppend_int sample.y).debugAppend ", ").debugAppend_int sample.z).debugAppend
      "\n").xfers = s.xfers := by
  cases h : s._debugLoggingEnabled <;>
    simp [debugLog, debugAppend, debugAppend_int, Serial_print, h]

/-- What one `getEvent` call does, by cases on whether it escalates: it
escalates when auto-range is enabled, the first sample saturates and the
range is not the largest one. -/
theorem getEvent_cases (s : L3G4200D_Unified) :
    (s.getEvent).1 = true ∧
    (s._autoRangeEnabled = true ∧ saturates (burstSample s.rx s.xfers) ∧
        s._range ≠ .GYRO_RANGE_34_DOT_91_RAD_PER_SEC →
      (s.getEvent).2.2._range = nextRange s._range ∧
      (s.getEvent).2.2.bus =
        s.bus ++ burstOps s._spiSettings s._spiCS ++
          writeOps s._spiSettings s._spiCS REG_CTRL_4 (0x80 ||| (nextRange s._range).toNat) ++
          burstOps s._spiSettings s._spiCS ∧
      (s.getEvent).2.2.xfers = s.xfers + 16 ∧
      (s.getEvent).2.1 = convertedAt (nextRange s._range) (burstSample s.rx (s.xfers + 9))) ∧
    (¬ (s._autoRangeEnabled = true ∧ saturates (burstSample s.rx s.xfers) ∧
        s._range ≠ .GYRO_RANGE_34_DOT_91_RAD_PER_SEC) →
      (s.getEvent).2.2._range = s._range ∧
      (s.getEvent).2.2.bus = s.bus ++ burstOps s._spiSettings s._spiCS ∧
      (s.getEvent).2.2.xfers = s.xfers + 7 ∧
      (s.getEvent).2.1 = convertedAt s._range (burstSample s.rx s.xfers)) := by
  refine ⟨rfl, ?_, ?_⟩
  · rintro ⟨ha, hsat, hr⟩
    simp only [getEvent, (debug_output_keeps_driver _ _).1, (debug_output_keeps_driver _ _).2.1,
      (debug_output_keeps_driver _ _).2.2, sampleToRad_eq, saturation_test,
      rawXYZ_sample, rawXYZ_driver, ha, hsat, if_true, convertedAt]
    cases hrange : s._range
    · simp [setRange, spiWriteReg_driver, rawXYZ_sample, rawXYZ_driver, nextRange,
        gyroRange_t.toNat, writeOps, REG_CTRL_4, CTRL4_UPDATE_MSB_AND_LSB_TOGETHER,
        CTRL4_LSB_AT_LOWER_ADDRESS, CTRL4_FULL_SCALE_500DPS, Nat.add_assoc]
    · simp [setRange, spiWriteReg_driver, rawXYZ_sample, rawXYZ_driver, nextRange,
        gyroRange_t.toNat, writeOps, REG_CTRL_4, CTRL4_UPDATE_MSB_AND_LSB_TOGETHER,
        CTRL4_LSB_AT_LOWER_ADDRESS, CTRL4_FULL_SCALE_2000DPS, Nat.add_assoc]
    · exact absurd hrange hr
  · intro hne
    simp only [getEvent, (debug_output_keeps_driver _ _).1, (debug_output_keeps_driver _ _).2.1,
      (debug_output_keeps_driver _ _).2.2, sampleToRad_eq, saturation_test,
      rawXYZ_sample, rawXYZ_driver, convertedAt]
    by_cases ha : s._autoRangeEnabled = true
    · by_cases hsat : saturates (burstSample s.rx s.xfers)
      · have hr : s._range = .GYRO_RANGE_34_DOT_91_RAD_PER_SEC := by
          by_contra hr
          exact hne ⟨ha, hsat, hr⟩
        simp [ha, hsat, hr, rawXYZ_sample, rawXYZ_driver]
      · simp [ha, hsat, rawXYZ_sample, rawXYZ_driver]
    · simp [ha, rawXYZ_sample, rawXYZ_driver]

/-- A sequence of `enableAutoRange` calls changes only the auto-range flag. -/
theorem enableAutoRange_sequence (flags : List Bool) (s : L3G4200D_Unified) :
    flags.foldl enableAutoRange s =
      { s with _autoRangeEnabled := (flags.foldl enableAutoRange s)._autoRangeEnabled } := by
  induction flags generalizing s with
  | nil => rfl
  | cons flag rest ih =>
    rw [List.foldl_cons, ih (s.enableAutoRange flag)]
    rfl

/-- C2: with auto-range enabled, the range at 4.36 or 8.73, and a first burst
sample that saturates on some axis, one `getEvent` call leaves the driver in
the next higher range, and the values it returns are those of the second,
re-acquired sample converted with the half-scale of the new range (which, for
a non-zero axis value, differs from the conversion with the old one).  The
first burst read takes exchanges 0 to 6 counted from the start of the call,
the write to CTRL4 exchanges 7 and 8, and the second burst read exchanges 9
to 15. -/
theorem getEvent_escalates_one_step (s : L3G4200D_Unified)
    (hauto : s._autoRangeEnabled = true)
    (hrange : s._range = .GYRO_RANGE_4_DOT_36_RAD_PER_SEC ∨
      s._range = .GYRO_RANGE_8_DOT_73_RAD_PER_SEC)
    (hsat : saturates (burstSample s.rx s.xfers)) :
    (s.getEvent).2.2._range = nextRange s._range ∧
    (s.getEvent).2.2.bus =
      s.bus ++ burstOps s._spiSettings s._spiCS ++
        writeOps s._spiSettings s._spiCS REG_CTRL_4 (0x80 ||| (nextRange s._range).toNat) ++
        burstOps s._spiSettings s._spiCS ∧
    (s.getEvent).2.1.x =
      ((burstSample s.rx (s.xfers + 9)).x : ℚ) * halfScale (nextRange s._range) / 32767 ∧
    (s.getEvent).2.1.y =
      ((burstSample s.rx (s.xfers + 9)).y : ℚ) * halfScale (nextRange s._range) / 32767 ∧
    (s.getEvent).2.1.z =
      ((burstSample s.rx (s.xfers + 9)).z : ℚ) * halfScale (nextRange s._range) / 32767 ∧
    ((burstSample s.rx (s.xfers + 9)).x ≠ 0 →
      (s.getEvent).2.1.x ≠
        ((burstSample s.rx (s.xfers + 9)).x : ℚ) * halfScale s._range / 32767) := by
  have hne : s._range ≠ .GYRO_RANGE_34_DOT_91_RAD_PER_SEC := by
    rcases hrange with h | h <;> simp [h]
  obtain ⟨hr, hbus, -, hval⟩ := (getEvent_cases s).2.1 ⟨hauto, hsat, hne⟩
  refine ⟨hr, hbus, ?_, ?_, ?_, ?_⟩
  · rw [hval]; rcases hrange with h | h <;> simp [h, convertedAt, nextRange, fullScale, halfScale] <;> ring
  · rw [hval]; rcases hrange with h | h <;> simp [h, convertedAt, nextRange, fullScale, halfScale] <;> ring
  · rw [hval]; rcases hrange with h | h <;> simp [h, convertedAt, nextRange, fullScale, halfScale] <;> ring
  · intro hx
    have hx2 : ((burstSample s.rx (s.xfers + 9)).x : ℚ) ≠ 0 := by exact_mod_cast hx
    rw [hval]
    rcases hrange with h | h <;>
      simp only [h, convertedAt, nextRange, fullScale, halfScale] <;>
      intro heq <;> apply hx2 <;> linarith

/-- Witness for C2: at 4.36 with auto-range enabled, a first sample with
`x = 32760` and a second sample with `x = 16380` leave the driver at 8.73 and
return `x = 16380 * 4.365 / 32767`. -/
theorem getEvent_escalates_one_step_witness :
    ((scripted .GYRO_RANGE_4_DOT_36_RAD_PER_SEC true
        [0, 0xF8, 0x7F, 0, 0, 0, 0, 0, 0, 0, 0xFC, 0x3F, 0, 0, 0, 0]).getEvent).2.2._range =
      .GYRO_RANGE_8_DOT_73_RAD_PER_SEC ∧
    ((scripted .GYRO_RANGE_4_DOT_36_RAD_PER_SEC true
        [0, 0xF8, 0x7F, 0, 0, 0, 0, 0, 0, 0, 0xFC, 0x3F, 0, 0, 0, 0]).getEvent).2.1.x =
      ((16380 : Int) : ℚ) * halfScale .GYRO_RANGE_8_DOT_73_RAD_PER_SEC / 32767 :=
  ⟨(getEvent_escalates_one_step
      (scripted .GYRO_RANGE_4_DOT_36_RAD_PER_SEC true
        [0, 0xF8, 0x7F, 0, 0, 0, 0, 0, 0, 0, 0xFC, 0x3F, 0, 0, 0, 0])
      rfl (Or.inl rfl) (by decide)).1,
   (getEvent_escalates_one_step
      (scripted .GYRO_RANGE_4_DOT_36_RAD_PER_SEC true
        [0, 0xF8, 0x7F, 0, 0, 0, 0, 0, 0, 0, 0xFC, 0x3F, 0, 0, 0, 0])
      rfl (Or.inl rfl) (by decide)).2.2.1⟩

/-- C3: with the range at 34.91, whatever the auto-range flag and whatever
the sample (so also with auto-range enabled and a saturating sample),
`getEvent` leaves the range at 34.91, performs one burst read and nothing
else on the bus (no register write, no second burst read), and returns that
sample converted with the half-scale 17.455. -/
theorem getEvent_at_ceiling (s : L3G4200D_Unified)
    (hrange : s._range = .GYRO_RANGE_34_DOT_91_RAD_PER_SEC) :
    (s.getEvent).2.2._range = .GYRO_RANGE_34_DOT_91_RAD_PER_SEC ∧
    (s.getEvent).2.2.bus = s.bus ++ burstOps s._spiSettings s._spiCS ∧
    (s.getEvent).2.2.xfers = s.xfers + 7 ∧
    (s.getEvent).2.1.x = ((burstSample s.rx s.xfers).x : ℚ) * (17455 / 1000) / 32767 ∧
    (s.getEvent).2.1.y = ((burstSample s.rx s.xfers).y : ℚ) * (17455 / 1000) / 32767 ∧
    (s.getEvent).2.1.z = ((burstSample s.rx s.xfers).z : ℚ) * (17455 / 1000) / 32767 := by
  have hne : ¬ (s._autoRangeEnabled = true ∧ saturates (burstSample s.rx s.xfers) ∧
      s._range ≠ .GYRO_RANGE_34_DOT_91_RAD_PER_SEC) := fun h => h.2.2 hrange
  obtain ⟨hr, hbus, hx, hval⟩ := (getEvent_cases s).2.2 hne
  rw [hrange] at hr hval
  refine ⟨hr, hbus, hx, ?_, ?_, ?_⟩ <;>
    · rw [hval]
      simp only [convertedAt, fullScale]
      ring

/-- Witness for C3: at 34.91 with auto-range enabled, a saturating sample
with `x = 32760` keeps the range and costs seven exchanges. -/
theorem getEvent_at_ceiling_witness :
    (scripted .GYRO_RANGE_34_DOT_91_RAD_PER_SEC true
        [0, 0xF8, 0x7F, 0, 0, 0, 0])._autoRangeEnabled = true ∧
    saturates (burstSample (scripted .GYRO_RANGE_34_DOT_91_RAD_PER_SEC true
        [0, 0xF8, 0x7F, 0, 0, 0, 0]).rx 0) ∧
    ((scripted .GYRO_RANGE_34_DOT_91_RAD_PER_SEC true
        [0, 0xF8, 0x7F, 0, 0, 0, 0]).getEvent).2.2._range =
      .GYRO_RANGE_34_DOT_91_RAD_PER_SEC ∧
    ((scripted .GYRO_RANGE_34_DOT_91_RAD_PER_SEC true
        [0, 0xF8, 0x7F, 0, 0, 0, 0]).getEvent).2.2.xfers = 7 ∧
    ((scripted .GYRO_RANGE_34_DOT_91_RAD_PER_SEC true
        [0, 0xF8, 0x7F, 0, 0, 0, 0]).getEvent).2.1.x =
      ((32760 : Int) : ℚ) * (17455 / 1000) / 32767 :=
  ⟨rfl, by decide,
   (getEvent_at_ceiling (scripted .GYRO_RANGE_34_DOT_91_RAD_PER_SEC true
      [0, 0xF8, 0x7F, 0, 0, 0, 0]) rfl).1,
   (getEvent_at_ceiling (scripted .GYRO_RANGE_34_DOT_91_RAD_PER_SEC true
      [0, 0xF8, 0x7F, 0, 0, 0, 0]) rfl).2.2.1,
   (getEvent_at_ceiling (scripted .GYRO_RANGE_34_DOT_91_RAD_PER_SEC true
      [0, 0xF8, 0x7F, 0, 0, 0, 0]) rfl).2.2.2.1⟩

/-- C4: whatever the range, a sequence of `enableAutoRange` calls changes
nothing but the auto-range flag; and if the `getEvent` call that follows runs
with auto-range disabled, or reads a sample that does not saturate, it
leaves the range unchanged and performs one burst read and nothing else on
the bus. -/
theorem getEvent_keeps_range (s : L3G4200D_Unified) (flags : List Bool)
    (h : (flags.foldl enableAutoRange s)._autoRangeEnabled = false ∨
      ¬ saturates (burstSample s.rx s.xfers)) :
    (flags.foldl enableAutoRange s)._range = s._range ∧
    (flags.foldl enableAutoRange s).bus = s.bus ∧
    ((flags.foldl enableAutoRange s).getEvent).2.2._range = s._range ∧
    ((flags.foldl enableAutoRange s).getEvent).2.2.bus =
      s.bus ++ burstOps s._spiSettings s._spiCS ∧
    ((flags.foldl enableAutoRange s).getEvent).2.2.xfers = s.xfers + 7 := by
  have hs := enableAutoRange_sequence flags s
  generalize flags.foldl enableAutoRange s = s1 at h hs
  have hrange : s1._range = s._range := by rw [hs]
  have hbus : s1.bus = s.bus := by rw [hs]
  have hrx : s1.rx = s.rx := by rw [hs]
  have hxf : s1.xfers = s.xfers := by rw [hs]
  have hset : s1._spiSettings = s._spiSettings := by rw [hs]
  have hcs : s1._spiCS = s._spiCS := by rw [hs]
  have hne : ¬ (s1._autoRangeEnabled = true ∧ saturates (burstSample s1.rx s1.xfers) ∧
      s1._range ≠ .GYRO_RANGE_34_DOT_91_RAD_PER_SEC) := by
    rintro ⟨ha, hsat, -⟩
    rcases h with h | h
    · rw [h] at ha; exact Bool.noConfusion ha
    · rw [hrx, hxf] at hsat; exact h hsat
  obtain ⟨hr, hb, hx, -⟩ := (getEvent_cases s1).2.2 hne
  exact ⟨hrange, hbus, hr.trans hrange, by rw [hb, hbus, hset, hcs], by rw [hx, hxf]⟩

/-- Witness for C4: after `setRange` to 8.73, disabling and re-enabling
auto-range and then reading an all-zero sample leaves the range at 8.73. -/
theorem getEvent_keeps_range_witness :
    (([false, true].foldl enableAutoRange
        ((scripted .GYRO_RANGE_4_DOT_36_RAD_PER_SEC true []).setRange
          .GYRO_RANGE_8_DOT_73_RAD_PER_SEC)).getEvent).2.2._range =
      .GYRO_RANGE_8_DOT_73_RAD_PER_SEC :=
  (getEvent_keeps_range
    ((scripted .GYRO_RANGE_4_DOT_36_RAD_PER_SEC true []).setRange
      .GYRO_RANGE_8_DOT_73_RAD_PER_SEC)
    [false, true] (Or.inr (by decide))).2.2.1

/-- C5: in every driver state and for every stream of bus answers, one
`getEvent` call performs either one burst read, or one burst read, one write
to CTRL4 and a second burst read; the range afterwards is the range before
or the next higher one, never a lower one, and from 4.36 it is never 34.91:
from 4.36 with both the first and the re-acquired sample saturating it is
8.73. -/
theorem getEvent_at_most_one_step (s : L3G4200D_Unified) :
    ((s.getEvent).2.2.bus = s.bus ++ burstOps s._spiSettings s._spiCS ∨
      (s.getEvent).2.2.bus =
        s.bus ++ burstOps s._spiSettings s._spiCS ++
          writeOps s._spiSettings s._spiCS REG_CTRL_4 (0x80 ||| (nextRange s._range).toNat) ++
          burstOps s._spiSettings s._spiCS) ∧
    ((s.getEvent).2.2.xfers = s.xfers + 7 ∨ (s.getEvent).2.2.xfers = s.xfers + 16) ∧
    ((s.getEvent).2.2._range = s._range ∨ (s.getEvent).2.2._range = nextRange s._range) ∧
    s._range.toNat ≤ (s.getEvent).2.2._range.toNat ∧
    (s._range = .GYRO_RANGE_4_DOT_36_RAD_PER_SEC →
      (s.getEvent).2.2._range ≠ .GYRO_RANGE_34_DOT_91_RAD_PER_SEC) ∧
    (s._autoRangeEnabled = true → s._range = .GYRO_RANGE_4_DOT_36_RAD_PER_SEC →
      saturates (burstSample s.rx s.xfers) → saturates (burstSample s.rx (s.xfers + 9)) →
      (s.getEvent).2.2._range = .GYRO_RANGE_8_DOT_73_RAD_PER_SEC) := by
  by_cases hesc : s._autoRangeEnabled = true ∧ saturates (burstSample s.rx s.xfers) ∧
      s._range ≠ .GYRO_RANGE_34_DOT_91_RAD_PER_SEC
  · obtain ⟨hr, hb, hx, -⟩ := (getEvent_cases s).2.1 hesc
    refine ⟨Or.inr hb, Or.inr hx, Or.inr hr, ?_, ?_, ?_⟩
    · rw [hr]; cases s._range <;> decide
    · intro h0; rw [hr, h0]; decide
    · intro _ h0 _ _; rw [hr, h0]; rfl
  · obtain ⟨hr, hb, hx, -⟩ := (getEvent_cases s).2.2 hesc
    refine ⟨Or.inl hb, Or.inl hx, Or.inl hr, ?_, ?_, ?_⟩
    · rw [hr]
    · intro h0; rw [hr, h0]; decide
    · intro ha h0 hsat _
      exact absurd ⟨ha, hsat, by rw [h0]; decide⟩ hesc

/-- C16: with auto-range enabled and the range at 4.36 or 8.73, `getEvent`
escalates (the range afterwards differs from the range before, and is the
next higher one) exactly when some axis of the first raw sample has magnitude
at least 32757; the value -32768, of magnitude 32768, makes it escalate. -/
theorem getEvent_escalates_iff_saturated (s : L3G4200D_Unified)
    (hauto : s._autoRangeEnabled = true)
    (hrange : s._range = .GYRO_RANGE_4_DOT_36_RAD_PER_SEC ∨
      s._range = .GYRO_RANGE_8_DOT_73_RAD_PER_SEC) :
    ((s.getEvent).2.2._range ≠ s._range ↔
      (32757 ≤ (burstSample s.rx s.xfers).x.natAbs ∨
        32757 ≤ (burstSample s.rx s.xfers).y.natAbs ∨
        32757 ≤ (burstSample s.rx s.xfers).z.natAbs)) ∧
    ((s.getEvent).2.2._range = nextRange s._range ↔
      (32757 ≤ (burstSample s.rx s.xfers).x.natAbs ∨
        32757 ≤ (burstSample s.rx s.xfers).y.natAbs ∨
        32757 ≤ (burstSample s.rx s.xfers).z.natAbs)) ∧
    ((burstSample s.rx s.xfers).x = -32768 ∨ (burstSample s.rx s.xfers).y = -32768 ∨
        (burstSample s.rx s.xfers).z = -32768 →
      (s.getEvent).2.2._range = nextRange s._range) ∧
    (s.rawXYZ).1 = burstSample s.rx s.xfers ∧
    (-32768 ≤ (burstSample s.rx s.xfers).x ∧ (burstSample s.rx s.xfers).x ≤ 32767) ∧
    (-32768 ≤ (burstSample s.rx s.xfers).y ∧ (burstSample s.rx s.xfers).y ≤ 32767) ∧
    (-32768 ≤ (burstSample s.rx s.xfers).z ∧ (burstSample s.rx s.xfers).z ≤ 32767) := by
  have hne : s._range ≠ .GYRO_RANGE_34_DOT_91_RAD_PER_SEC := by
    rcases hrange with h | h <;> simp [h]
  have hnext : nextRange s._range ≠ s._range := by
    rcases hrange with h | h <;> simp [h, nextRange]
  have hiff : (s.getEvent).2.2._range = nextRange s._range ↔
      saturates (burstSample s.rx s.xfers) := by
    constructor
    · intro heq
      by_contra hsat
      have hkeep := ((getEvent_cases s).2.2 (fun h => hsat h.2.1)).1
      exact hnext (heq.symm.trans hkeep)
    · intro hsat
      exact ((getEvent_cases s).2.1 ⟨hauto, hsat, hne⟩).1
  refine ⟨?_, hiff, ?_, rawXYZ_sample s, ?_, ?_, ?_⟩
  · constructor
    · intro hdiff
      by_contra hsat
      exact hdiff ((getEvent_cases s).2.2 (fun h => hsat h.2.1)).1
    · intro hsat
      rw [hiff.2 hsat]
      exact hnext
  · intro hmin
    apply hiff.2
    unfold saturates
    omega
  · simp only [burstSample, twosComplement16]
    split_ifs <;> omega
  · simp only [burstSample, twosComplement16]
    split_ifs <;> omega
  · simp only [burstSample, twosComplement16]
    split_ifs <;> omega

/-- Witness for C16: at 4.36 with auto-range enabled, a first sample with
`x = -32768` moves the driver to 8.73. -/
theorem getEvent_escalates_iff_saturated_witness :
    ((scripted .GYRO_RANGE_4_DOT_36_RAD_PER_SEC true
        [0, 0x00, 0x80, 0, 0, 0, 0]).rawXYZ).1.x = -32768 ∧
    ((scripted .GYRO_RANGE_4_DOT_36_RAD_PER_SEC true
        [0, 0x00, 0x80, 0, 0, 0, 0]).getEvent).2.2._range = .GYRO_RANGE_8_DOT_73_RAD_PER_SEC :=
  ⟨by decide,
   (getEvent_escalates_iff_saturated
      (scripted .GYRO_RANGE_4_DOT_36_RAD_PER_SEC true [0, 0x00, 0x80, 0, 0, 0, 0])
      rfl (Or.inl rfl)).2.2.1 (Or.inl (by decide))⟩

/-! ## Unit conversion -/

/-- Counterexample to C6: for the raw sample -32768 the converted value is
not the negative half-scale constant; at 4.36 it is `-2.18 * 32768 / 32767`,
which lies below `-2.18` by `2.18 / 32767`. -/
theorem sampleToRad_min_exceeds_half_scale :
    (scripted .GYRO_RANGE_4_DOT_36_RAD_PER_SEC false []).sampleToRad (-32768) ≠
      -halfScale .GYRO_RANGE_4_DOT_36_RAD_PER_SEC ∧
    -halfScale .GYRO_RANGE_4_DOT_36_RAD_PER_SEC -
        (scripted .GYRO_RANGE_4_DOT_36_RAD_PER_SEC false []).sampleToRad (-32768) =
      halfScale .GYRO_RANGE_4_DOT_36_RAD_PER_SEC / 32767 := by
  norm_num [sampleToRad, rangeInRadians, scripted, INT16_MAX, halfScale]

/-- C6, amended: for each of the three ranges and every raw sample, the
converted value is `raw * (fullScale / 2) / 32767` with `fullScale` 4.36,
8.73 or 34.91; `fullScale / 2` is the half-scale constant 2.18, 4.365 or
17.455; for `raw = 32767` the result is the half-scale constant, and for
`raw = -32768` it is the negative half-scale constant times `32768 / 32767`. -/
theorem sampleToRad_formula (s : L3G4200D_Unified) (raw : Int) :
    s.sampleToRad raw = (raw : ℚ) * (fullScale s._range / 2) / 32767 ∧
    fullScale s._range / 2 = halfScale s._range ∧
    s.sampleToRad 32767 = halfScale s._range ∧
    s.sampleToRad (-32768) = -halfScale s._range * (32768 / 32767) := by
  refine ⟨sampleToRad_eq s raw, ?_, ?_, ?_⟩
  · cases s._range <;> norm_num [fullScale, halfScale]
  · rw [sampleToRad_eq]; cases s._range <;> norm_num [fullScale, halfScale]
  · rw [sampleToRad_eq]; cases s._range <;> norm_num [fullScale, halfScale]

/-! ## Metadata -/

/-- C11: in every driver state `getSensor` reports the minimum value 0, but
the maximum value it reports is the constant 31.94; this is not the
half-scale of the largest range, 34.91 / 2 = 17.455, that `rangeInRadians`
returns there, and not that range, 34.91, either. -/
theorem getSensor_max_value (s : L3G4200D_Unified) :
    s.getSensor.min_value = 0 ∧
    s.getSensor.max_value = 3194 / 100 ∧
    s.getSensor.max_value ≠ 3491 / 100 / 2 ∧
    s.getSensor.max_value ≠ halfScale .GYRO_RANGE_34_DOT_91_RAD_PER_SEC ∧
    s.getSensor.max_value ≠
      ({ s with _range := .GYRO_RANGE_34_DOT_91_RAD_PER_SEC } : L3G4200D_Unified).rangeInRadians ∧
    s.getSensor.max_value ≠ fullScale .GYRO_RANGE_34_DOT_91_RAD_PER_SEC := by
  refine ⟨rfl, ?_, ?_, ?_, ?_, ?_⟩ <;>
    norm_num [getSensor, halfScale, fullScale, rangeInRadians]

/-- C12: in every driver state the resolution that `getSensor` reports is
4.36 / 65535; it is the same in any two driver states, so for each of the
three ranges, and before and after a `setRange` or a `getEvent` call. -/
theorem getSensor_resolution (s : L3G4200D_Unified) :
    s.getSensor.resolution = 436 / 100 / 65535 ∧
    s.getSensor.resolution = fullScale .GYRO_RANGE_4_DOT_36_RAD_PER_SEC / 65535 ∧
    (∀ other : L3G4200D_Unified, other.getSensor.resolution = s.getSensor.resolution) ∧
    (∀ range : gyroRange_t,
      ({ s with _range := range } : L3G4200D_Unified).getSensor.resolution =
        s.getSensor.resolution) ∧
    (∀ range : gyroRange_t, (s.setRange range).getSensor.resolution = s.getSensor.resolution) ∧
    (s.getEvent).2.2.getSensor.resolution = s.getSensor.resolution := by
  refine ⟨?_, ?_, fun _ => rfl, fun _ => rfl, fun _ => rfl, rfl⟩ <;>
    norm_num [getSensor, UINT16_MAX, fullScale]

/-! ## Range management -/

/-- C14: for each of the three ranges `r`, `setRange r` makes `r` the active
range, so that `rangeInRadians` returns 2.18, 4.365 or 17.455, and performs
one register write and nothing else on the bus: to CTRL4 (0x23), of the
value `0x80 OR` the code of `r`, which is 0x80, 0x90 or 0xA0 and has bit 7
set and bit 6 clear. -/
theorem setRange_writes_ctrl4 (s : L3G4200D_Unified) (r : gyroRange_t) :
    s.setRange r =
      { s with _range := r,
               bus := s.bus ++ writeOps s._spiSettings s._spiCS 0x23 (0x80 ||| r.toNat),
               xfers := s.xfers + 2 } ∧
    (s.setRange r)._range = r ∧
    (s.setRange r).rangeInRadians = halfScale r ∧
    wireOps (writeOps s._spiSettings s._spiCS 0x23 (0x80 ||| r.toNat)) =
      [.digitalWrite s._spiCS false, .transfer 0x23, .transfer (0x80 ||| r.toNat),
       .digitalWrite s._spiCS true] ∧
    (0x80 ||| gyroRange_t.GYRO_RANGE_4_DOT_36_RAD_PER_SEC.toNat = 0x80 ∧
      0x80 ||| gyroRange_t.GYRO_RANGE_8_DOT_73_RAD_PER_SEC.toNat = 0x90 ∧
      0x80 ||| gyroRange_t.GYRO_RANGE_34_DOT_91_RAD_PER_SEC.toNat = 0xA0) ∧
    ((0x80 ||| r.toNat) >>> 4) &&& 0b11 = r.toNat >>> 4 ∧
    (0x80 ||| r.toNat).testBit 7 = true ∧
    (0x80 ||| r.toNat).testBit 6 = false := by
  have hstate : s.setRange r =
      { s with _range := r,
               bus := s.bus ++ writeOps s._spiSettings s._spiCS 0x23 (0x80 ||| r.toNat),
               xfers := s.xfers + 2 } := by
    rw [setRange, spiWriteReg_driver]
    cases r <;> rfl
  refine ⟨hstate, ?_, ?_, rfl, by decide, ?_, ?_, ?_⟩
  · rw [hstate]
  · rw [hstate]
    cases r <;> norm_num [rangeInRadians, halfScale]
  · cases r <;> decide
  · cases r <;> decide
  · cases r <;> decide

/-! ## Initialisation -/

/-- C1: whatever byte `b` the chip answers on the second exchange of the
identity-register read, `begin` returns success exactly when `b = 0xD3`; it
returns failure for `0x00`, for `0xFF` and for every other value. -/
theorem begin_succeeds_iff_chip_id (s : L3G4200D_Unified) (cs : Int) (range : gyroRange_t) :
    ((s.begin cs range).1 = true ↔ s.rx (s.xfers + 1) % 256 = 0xD3) ∧
    (s.rx (s.xfers + 1) % 256 = 0x00 → (s.begin cs range).1 = false) ∧
    (s.rx (s.xfers + 1) % 256 = 0xFF → (s.begin cs range).1 = false) ∧
    (s.rx (s.xfers + 1) % 256 ≠ 0xD3 → (s.begin cs range).1 = false) := by
  simp only [begin, spiReadReg, beginTransaction, endTransaction, spi_transfer,
    spi_beginTransaction, spi_endTransaction, digitalWrite, spi_begin, pinMode_OUTPUT,
    L3G4200D_CHIP_ID]
  refine ⟨?_, ?_, ?_, ?_⟩
  · split_ifs <;> simp_all
  · intro h; simp [h]
  · intro h; simp [h]
  · intro h; split_ifs <;> simp_all

/-- What one `begin` call does to the driver and to the bus, by cases on the
identity byte: the answer to the second exchange of the identity read. -/
theorem begin_cases (s : L3G4200D_Unified) (cs : Int) (range : gyroRange_t) :
    (s.rx (s.xfers + 1) % 256 = 0xD3 →
      (s.begin cs range).1 = true ∧
      (s.begin cs range).2._range = range ∧
      (s.begin cs range).2.bus = s.bus ++ identityOps cs ++ configOps cs range ∧
      (s.begin cs range).2.xfers = s.xfers + 10) ∧
    (s.rx (s.xfers + 1) % 256 ≠ 0xD3 →
      (s.begin cs range).1 = false ∧
      (s.begin cs range).2._range = range ∧
      (s.begin cs range).2.bus = s.bus ++ identityOps cs ∧
      (s.begin cs range).2.xfers = s.xfers + 2) ∧
    (s.begin cs range).2._spiCS = cs ∧
    (s.begin cs range).2._spiSettings = beginSettings ∧
    (s.begin cs range).2._autoRangeEnabled = s._autoRangeEnabled := by
  rcases s with ⟨cs0, id, ar, r0, st, dbg, bus, rx, xf, ser⟩
  refine ⟨?_, ?_, ?_, ?_, ?_⟩
  · intro h
    cases range <;>
      simp [begin, spiReadReg, spiWriteReg, beginTransaction, endTransaction, spi_transfer,
        spi_beginTransaction, spi_endTransaction, digitalWrite, spi_begin, pinMode_OUTPUT,
        L3G4200D_CHIP_ID, h, identityOps, configOps, writeOps, beginSettings, REG_WHO_AM_I,
        REG_CTRL_1, REG_CTRL_3, REG_CTRL_4, REG_CTRL_5, CTRL1_RATE_400HZ_CUTOFF_25HZ,
        CTRL1_XYZ, CTRL3_DRIVE_HIGH_AND_LOW, CTRL4_UPDATE_MSB_AND_LSB_TOGETHER,
        CTRL4_LSB_AT_LOWER_ADDRESS, CTRL5_NO_FILTERING, gyroRange_t.toNat,
        CTRL4_FULL_SCALE_250DPS, CTRL4_FULL_SCALE_500DPS, CTRL4_FULL_SCALE_2000DPS]
  · intro h
    simp only [begin, spiReadReg, beginTransaction, endTransaction, spi_transfer,
      spi_beginTransaction, spi_endTransaction, digitalWrite, spi_begin, pinMode_OUTPUT,
      L3G4200D_CHIP_ID]
    rw [if_pos h]
    split_ifs <;> cases dbg <;>
      simp [debugLog, debugLog_int, Serial_print, identityOps, beginSettings, REG_WHO_AM_I]
  all_goals
    simp only [begin, spiReadReg, spiWriteReg, beginTransaction, endTransaction, spi_transfer,
      spi_beginTransaction, spi_endTransaction, digitalWrite, spi_begin, pinMode_OUTPUT,
      L3G4200D_CHIP_ID]
    split_ifs <;> cases dbg <;>
      simp [debugLog, debugLog_int, Serial_print, beginSettings]

/-- Counterexample to C13: a driver at 4.36 whose bus answers 0x00 to the
identity read is asked to `begin` at 34.91; `begin` fails, and the active
range afterwards is 34.91, the requested one, not 4.36. -/
theorem begin_failure_stores_requested_range :
    ((scripted .GYRO_RANGE_4_DOT_36_RAD_PER_SEC false []).begin 10
        .GYRO_RANGE_34_DOT_91_RAD_PER_SEC).1 = false ∧
    ((scripted .GYRO_RANGE_4_DOT_36_RAD_PER_SEC false []).begin 10
        .GYRO_RANGE_34_DOT_91_RAD_PER_SEC).2._range = .GYRO_RANGE_34_DOT_91_RAD_PER_SEC ∧
    ((scripted .GYRO_RANGE_4_DOT_36_RAD_PER_SEC false []).begin 10
        .GYRO_RANGE_34_DOT_91_RAD_PER_SEC).2._range ≠
      (scripted .GYRO_RANGE_4_DOT_36_RAD_PER_SEC false [])._range ∧
    ((scripted .GYRO_RANGE_4_DOT_36_RAD_PER_SEC false []).begin 10
        .GYRO_RANGE_34_DOT_91_RAD_PER_SEC).2.rangeInRadians ≠
      (scripted .GYRO_RANGE_4_DOT_36_RAD_PER_SEC false []).rangeInRadians := by
  have h := (begin_cases (scripted .GYRO_RANGE_4_DOT_36_RAD_PER_SEC false []) 10
    .GYRO_RANGE_34_DOT_91_RAD_PER_SEC).2.1 (by decide)
  refine ⟨h.1, h.2.1, ?_, ?_⟩
  · rw [h.2.1]; decide
  · unfold rangeInRadians
    rw [h.2.1]
    norm_num [scripted]

/-- C13, amended: when the identity byte is not 0xD3, `begin` returns failure
and writes no configuration register (the bus sees only the identity check),
but the driver keeps what the failed call stored: the chip-select pin, the
SPI settings and the requested range, which `rangeInRadians` and later
conversions then use. -/
theorem begin_failure_keeps_request (s : L3G4200D_Unified) (cs : Int) (range : gyroRange_t)
    (h : s.rx (s.xfers + 1) % 256 ≠ 0xD3) :
    (s.begin cs range).1 = false ∧
    (s.begin cs range).2.bus = s.bus ++ identityOps cs ∧
    (s.begin cs range).2._spiCS = cs ∧
    (s.begin cs range).2._spiSettings = beginSettings ∧
    (s.begin cs range).2._range = range ∧
    (s.begin cs range).2.rangeInRadians = halfScale range ∧
    ∀ raw : Int,
      (s.begin cs range).2.sampleToRad raw = (raw : ℚ) * halfScale range / 32767 := by
  obtain ⟨-, hfail, hcs, hset, -⟩ := begin_cases s cs range
  obtain ⟨hres, hrange, hbus, -⟩ := hfail h
  have hrad : (s.begin cs range).2.rangeInRadians = halfScale range := by
    unfold rangeInRadians
    rw [hrange]
    cases range <;> norm_num [halfScale]
  refine ⟨hres, hbus, hcs, hset, hrange, hrad, ?_⟩
  intro raw
  rw [sampleToRad, hrad]
  norm_num [INT16_MAX]

/-- Witness for C13, amended: the identity byte 0xFF, a request for 8.73. -/
theorem begin_failure_keeps_request_witness :
    ((scripted .GYRO_RANGE_4_DOT_36_RAD_PER_SEC false [0x00, 0xFF]).begin 10
        .GYRO_RANGE_8_DOT_73_RAD_PER_SEC).1 = false ∧
    ((scripted .GYRO_RANGE_4_DOT_36_RAD_PER_SEC false [0x00, 0xFF]).begin 10
        .GYRO_RANGE_8_DOT_73_RAD_PER_SEC).2._range = .GYRO_RANGE_8_DOT_73_RAD_PER_SEC :=
  ⟨(begin_failure_keeps_request (scripted .GYRO_RANGE_4_DOT_36_RAD_PER_SEC false [0x00, 0xFF])
      10 .GYRO_RANGE_8_DOT_73_RAD_PER_SEC (by decide)).1,
   (begin_failure_keeps_request (scripted .GYRO_RANGE_4_DOT_36_RAD_PER_SEC false [0x00, 0xFF])
      10 .GYRO_RANGE_8_DOT_73_RAD_PER_SEC (by decide)).2.2.2.2.1⟩

/-- C15: `begin` performs register writes exactly when the identity byte is
0xD3.  It then performs four of them after the identity check, in this
order: 0x9F to CTRL1 (0x20), 0x00 to CTRL3 (0x22), `0x80 OR` the code of the
requested range to CTRL4 (0x23), 0x00 to CTRL5 (0x24); it returns success and
the active range is the requested one.  Otherwise the bus sees the identity
check only. -/
theorem begin_configuration_writes (s : L3G4200D_Unified) (cs : Int) (range : gyroRange_t) :
    ((s.begin cs range).2.bus =
        s.bus ++ identityOps cs ++
          (writeOps beginSettings cs 0x20 0x9F ++ writeOps beginSettings cs 0x22 0x00 ++
            writeOps beginSettings cs 0x23 (0x80 ||| range.toNat) ++
            writeOps beginSettings cs 0x24 0x00) ↔
      s.rx (s.xfers + 1) % 256 = 0xD3) ∧
    ((s.begin cs range).2.bus = s.bus ++ identityOps cs ↔ s.rx (s.xfers + 1) % 256 ≠ 0xD3) ∧
    (s.rx (s.xfers + 1) % 256 = 0xD3 →
      (s.begin cs range).1 = true ∧ (s.begin cs range).2._range = range ∧
      (s.begin cs range).2.xfers = s.xfers + 10) ∧
    (0x9F = CTRL1_RATE_400HZ_CUTOFF_25HZ ||| CTRL1_XYZ ∧
      0x9F = (0b10 <<< 6) ||| (0b01 <<< 4) ||| (1 <<< 3) ||| 0b111) ∧
    (∀ first value : Nat,
      wireOps (writeOps beginSettings cs first value) =
        [.digitalWrite cs false, .transfer first, .transfer value, .digitalWrite cs true]) := by
  obtain ⟨hok, hfail, -⟩ := begin_cases s cs range
  have hne : ∀ l : List BusOp, l ++ configOps cs range ≠ l := by
    intro l hl
    have := congrArg List.length hl
    simp [configOps, writeOps] at this
  refine ⟨⟨?_, fun h => (hok h).2.2.1⟩, ⟨?_, fun h => (hfail h).2.2.1⟩,
    fun h => ⟨(hok h).1, (hok h).2.1, (hok h).2.2.2⟩, by decide, fun _ _ => rfl⟩
  · intro hbus
    by_contra h
    rw [(hfail h).2.2.1] at hbus
    exact hne _ hbus.symm
  · intro hbus h
    rw [(hok h).2.2.1] at hbus
    exact hne _ hbus

/-- C17: whatever the identity byte, the bus operations of `begin` start with
the chip-select pin made an output and driven high and the SPI peripheral
started; the identity read that follows selects the chip twice, exchanges
0x8F and 0x00, and deselects the chip twice, in two nested SPI transactions.
This is not the single transaction of a register read. -/
theorem begin_identity_read_nests (s : L3G4200D_Unified) (cs : Int) (range : gyroRange_t) :
    (∃ rest : List BusOp,
      (s.begin cs range).2.bus =
        s.bus ++ [.pinModeOutput cs, .digitalWrite cs true, .spiBegin] ++
          [.spiBeginTransaction beginSettings, .digitalWrite cs false,
           .spiBeginTransaction beginSettings, .digitalWrite cs false,
           .transfer 0x8F, .transfer 0x00,
           .digitalWrite cs true, .spiEndTransaction,
           .digitalWrite cs true, .spiEndTransaction] ++ rest ∧
      (rest = [] ∨ rest = configOps cs range)) ∧
    wireOps (identityOps cs) =
      [.digitalWrite cs true,
       .digitalWrite cs false, .digitalWrite cs false, .transfer 0x8F, .transfer 0x00,
       .digitalWrite cs true, .digitalWrite cs true] ∧
    (identityOps cs).drop 3 ≠ readOps beginSettings cs 0x8F ∧
    wireOps ((identityOps cs).drop 3) ≠
      [.digitalWrite cs false, .transfer 0x8F, .transfer 0x00, .digitalWrite cs true] := by
  obtain ⟨hok, hfail, -⟩ := begin_cases s cs range
  refine ⟨?_, rfl, ?_, ?_⟩
  · by_cases h : s.rx (s.xfers + 1) % 256 = 0xD3
    · exact ⟨configOps cs range, by rw [(hok h).2.2.1]; simp [identityOps], Or.inr rfl⟩
    · exact ⟨[], by rw [(hfail h).2.2.1]; simp [identityOps], Or.inl rfl⟩
  · intro h
    have := congrArg List.length h
    simp [identityOps, readOps] at this
  · intro h
    have := congrArg List.length h
    simp [identityOps, wireOps] at this

/-- The three failures of the identity check are told apart by the
diagnostic that `begin` prints first when debug logging is enabled; with
debug logging disabled nothing is printed. -/
theorem begin_diagnostics (s : L3G4200D_Unified) (cs : Int) (range : gyroRange_t) :
    (s._debugLoggingEnabled = false → (s.begin cs range).2.serial = s.serial) ∧
    (s._debugLoggingEnabled = true → s.rx (s.xfers + 1) % 256 = 0x00 →
      (s.begin cs range).2.serial = s.serial ++
        [.str "[", .int s._sensorId, .str "]: ",
         .str ("We tried to read the L3G4200 gyroscope chip ID, but got all " ++
           "logic LOWs (0s) in response.\n"),
         .str "[", .int s._sensorId, .str "]: ",
         .str "Check that all your wires are connected properly?\n"]) ∧
    (s._debugLoggingEnabled = true → s.rx (s.xfers + 1) % 256 = 0xFF →
      (s.begin cs range).2.serial = s.serial ++
        [.str "[", .int s._sensorId, .str "]: ",
         .str ("We tried to read the L3G4200 gyroscope chip ID, but got all " ++
           "logic HIGHs (1s) in response.\n"),
         .str "[", .int s._sensorId, .str "]: ",
         .str "Check that all your wires are connected properly?\n"]) ∧
    (s._debugLoggingEnabled = true → s.rx (s.xfers + 1) % 256 ≠ 0x00 →
      s.rx (s.xfers + 1) % 256 ≠ 0xFF → s.rx (s.xfers + 1) % 256 ≠ 0xD3 →
      (s.begin cs range).2.serial = s.serial ++
        [.str "[", .int s._sensorId, .str "]: ",
         .str "We tried to read the L3G4200 gyroscope chip ID expecting ",
         .str "[", .int s._sensorId, .str "]: ", .int 0xd3,
         .str "[", .int s._sensorId, .str "]: ", .str ", but got ",
         .str "[", .int s._sensorId, .str "]: ", .int (s.rx (s.xfers + 1) % 256 : Nat),
         .str "[", .int s._sensorId, .str "]: ", .str "\n",
         .str "[", .int s._sensorId, .str "]: ",
         .str ("Perhaps you have the wrong chip select connected or you're " ++
           "connected to a different part?\n")]) ∧
    (s.rx (s.xfers + 1) % 256 = 0xD3 → (s.begin cs range).2.serial = s.serial) := by
  rcases s with ⟨cs0, id, ar, r0, st, dbg, bus, rx, xf, ser⟩
  refine ⟨?_, ?_, ?_, ?_, ?_⟩
  · rintro rfl
    simp only [begin, spiReadReg, spiWriteReg, beginTransaction, endTransaction, spi_transfer,
      spi_beginTransaction, spi_endTransaction, digitalWrite, spi_begin, pinMode_OUTPUT,
      L3G4200D_CHIP_ID]
    split_ifs <;> simp [debugLog, debugLog_int, Serial_print]
  · rintro rfl h0
    simp [begin, spiReadReg, beginTransaction, endTransaction, spi_transfer,
      spi_beginTransaction, spi_endTransaction, digitalWrite, spi_begin, pinMode_OUTPUT,
      debugLog, Serial_print, h0]
  · rintro rfl h0
    simp [begin, spiReadReg, beginTransaction, endTransaction, spi_transfer,
      spi_beginTransaction, spi_endTransaction, digitalWrite, spi_begin, pinMode_OUTPUT,
      debugLog, Serial_print, h0]
  · rintro rfl h0 h1 h2
    simp [begin, spiReadReg, beginTransaction, endTransaction, spi_transfer,
      spi_beginTransaction, spi_endTransaction, digitalWrite, spi_begin, pinMode_OUTPUT,
      L3G4200D_CHIP_ID, debugLog, debugLog_int, Serial_print, h0, h1, h2]
  · intro h
    simp [begin, spiReadReg, spiWriteReg, beginTransaction, endTransaction, spi_transfer,
      spi_beginTransaction, spi_endTransaction, digitalWrite, spi_begin, pinMode_OUTPUT,
      L3G4200D_CHIP_ID, h]

end L3G4200D
